import Mathlib

/-!
Verification development for the casino-affiliate backend
(`src/main.py`, `src/database.py`, `src/schemas.py`).

The Python code is shallowly embedded: each endpoint handler becomes a pure
Lean function over explicit collection state, Python `int` becomes `ℤ`,
Python `float` values that the code only ever treats as numbers become `ℚ`,
dynamic (schemaless) document fields become the `PyVal` sum type, and
MongoDB collections become lists (of typed records where the handler only
reads fixed fields, of key-value documents where presence or absence of a
key matters).  Fallible operations return `Except`; database unavailability
is an explicit `dbOk : Bool` parameter standing for whether the lazily
connected client exists.
-/

/-- A dynamic (Python/BSON) value as stored in a document field.
`pTime` stands for a `datetime` instant, abstracted to a tick count. -/
inductive PyVal where
  | pInt : ℤ → PyVal
  | pFloat : ℚ → PyVal
  | pStr : String → PyVal
  | pBool : Bool → PyVal
  | pTime : ℕ → PyVal
  | pList : List String → PyVal
  | pNone : PyVal
deriving DecidableEq, Repr

/-- A schemaless document: an association list from field names to values,
mirroring a Python dict whose iteration order is insertion order. -/
def DocKV : Type := List (String × PyVal)

instance : DecidableEq DocKV := by unfold DocKV; infer_instance

instance : Append DocKV := ⟨List.append⟩

/-- Dictionary read `d.get(k)` on a Python dict (`None` as `Option.none`). -/
def getKey : DocKV → String → Option PyVal
  | [], _ => none
  | (k', v) :: t, k => if k' = k then some v else getKey t k

/-- Dictionary write `d[k] = v` on a Python dict: replace the value in
place if the key is present, otherwise append the new key at the end. -/
def setKey : DocKV → String → PyVal → DocKV
  | [], k, v => [(k, v)]
  | (k', v') :: t, k, v => if k' = k then (k', v) :: t else (k', v') :: setKey t k v

/-- Python truthiness of the values we model (used by `if country:`,
`not doc.get("published_at")`, and similar guards in `main.py`). -/
def truthyVal : PyVal → Bool
  | .pInt n => !(n = 0 : Bool) |>.and true
  | .pFloat q => decide (q ≠ 0)
  | .pStr s => decide (s ≠ "")
  | .pBool b => b
  | .pTime _ => true
  | .pList l => !l.isEmpty
  | .pNone => false

/-- Truthiness of an `Optional[str]` (`None` and `""` are falsy). -/
def truthyOptStr : Option String → Bool
  | none => false
  | some s => decide (s ≠ "")

/-- Embed an `Optional[str]` field value into a document. -/
def optStrVal : Option String → PyVal
  | none => .pNone
  | some s => .pStr s

/-- Embed an `Optional[datetime]` field value into a document. -/
def optTimeVal : Option ℕ → PyVal
  | none => .pNone
  | some t => .pTime t

/-- HTTP errors raised via `HTTPException(status_code, detail)`. -/
def Err : Type := ℕ × String

instance : DecidableEq Err := by unfold Err; infer_instance

/-! ### Strings: case mapping, ordering, substring and regex search

`String.toLower`/`toUpper` and the builtin `String` ordering do not reduce
in the kernel, so the character-level operations are spelled out on
`List Char` (a `String` is its list of characters). -/

/-- Python `country.upper()` (per-character upper-casing). -/
def upperStr (s : String) : String := ⟨s.data.map Char.toUpper⟩

/-- Lexicographic order on character lists: the ordering MongoDB uses for
string sort keys (and Lean's own `String` order), made kernel-computable. -/
def lexLe : List Char → List Char → Bool
  | [], _ => true
  | _ :: _, [] => false
  | a :: as, b :: bs => if a = b then lexLe as bs else decide (a < b)

/-- Does `needle` occur at the very start of `hay`, comparing characters
case-insensitively?  (Spec-side notion, for the substring reading of `q`.) -/
def headMatchCI : List Char → List Char → Bool
  | [], _ => true
  | _ :: _, [] => false
  | a :: as, b :: bs => (a.toLower = b.toLower : Bool).and (headMatchCI as bs)

/-- Case-insensitive literal substring containment (the spec's
"case-insensitive substring match on name"). -/
def containsCI (needle : List Char) : List Char → Bool
  | [] => needle.isEmpty
  | c :: t => (headMatchCI needle (c :: t)).or (containsCI needle t)

/-- One regex pattern character against one subject character, under the
`"$options": "i"` flag: `.` matches anything, anything else matches its
own letter case-insensitively.  (The handler passes `q` verbatim as a
`$regex`; we model the fragment of PCRE generated by patterns built from
literals and `.`, which is all the refutation needs.) -/
def chMatch (p c : Char) : Bool := (p = '.' : Bool).or (p.toLower = c.toLower)

/-- Does the pattern match a prefix of the subject? -/
def matchHere : List Char → List Char → Bool
  | [], _ => true
  | _ :: _, [] => false
  | p :: ps, c :: cs => (chMatch p c).and (matchHere ps cs)

/-- Unanchored regex search, as MongoDB `$regex` performs. -/
def regexSearch (pat : List Char) : List Char → Bool
  | [] => matchHere pat []
  | c :: t => (matchHere pat (c :: t)).or (regexSearch pat t)

/-! ### Casino documents and `GET /api/casinos` (`list_casinos`) -/

/-- A stored casino record; the same field set serves as the
`CasinoUpsert`/`Casino`/`SeedCasino` payload shape (they coincide in
`schemas.py`/`main.py`).  `base_score` is a float in the source, modelled
exactly as a rational. -/
structure CasinoDoc where
  name : String
  slug : String
  logo_url : Option String := none
  affiliate_url : String
  bonus_text : Option String := none
  features : List String := []
  supported_countries : List String := []
  base_score : ℚ := 4
  pros : List String := []
  cons : List String := []
  payment_methods : List String := []
  providers : List String := []
  gallery : List String := []
  seo_title : Option String := none
  seo_description : Option String := none
  is_published : Bool := true
deriving DecidableEq, Repr

/-- The Mongo filter built by `list_casinos`: `is_published: True`, plus
`supported_countries: {$in: [country.upper()]}` when `country` is truthy,
plus `name: {$regex: q, $options: "i"}` when `q` is truthy. -/
def casinoFilter (country q : Option String) (c : CasinoDoc) : Bool :=
  c.is_published
    |>.and (if truthyOptStr country
            then c.supported_countries.contains (upperStr ((country.getD "")))
            else true)
    |>.and (if truthyOptStr q
            then regexSearch ((q.getD "").data) c.name.data
            else true)

/-- The sort comparator chosen from the `sort` query parameter
(`score_desc` / `score_asc` / `name_desc` / default `name` ascending). -/
def sortLe (sort : Option String) (a b : CasinoDoc) : Bool :=
  if sort = some "score_desc" then decide (b.base_score ≤ a.base_score)
  else if sort = some "score_asc" then decide (a.base_score ≤ b.base_score)
  else if sort = some "name_desc" then lexLe b.name.data a.name.data
  else lexLe a.name.data b.name.data

/-- Pagination metadata returned by the listing endpoints. -/
structure Pagination where
  page : ℤ
  page_size : ℤ
  total : ℤ
  pages : ℤ
deriving DecidableEq, Repr

/-- Response of `GET /api/casinos`. -/
structure CasinoListResp where
  items : List CasinoDoc
  pagination : Pagination
deriving DecidableEq, Repr

/-- Handler `list_casinos` from `main.py`.  `dbOk = false` stands for the code path
where touching the collection raises (database not configured), which the
handler catches and turns into the empty fallback response; note the
normalisation of `page`/`page_size` happens before anything can raise.
Python `//` is floor division, i.e. `Int.fdiv`. -/
def list_casinos (dbOk : Bool) (casinos : List CasinoDoc)
    (country q : Option String) (page0 page_size0 : ℤ) (sort : Option String) :
    CasinoListResp :=
  let page := if page0 < 1 then 1 else page0
  let page_size := if page_size0 < 1 ∨ page_size0 > 50 then 10 else page_size0
  match dbOk with
  | true =>
    let flt := casinos.filter (casinoFilter country q)
    let total : ℤ := flt.length
    let sorted := List.insertionSort (fun a b => sortLe sort a b = true) flt
    let docs := (sorted.drop ((page - 1) * page_size).toNat).take page_size.toNat
    { items := docs,
      pagination :=
        { page := page, page_size := page_size, total := total,
          pages := Int.fdiv (total + page_size - 1) page_size } }
  | false =>
    { items := [],
      pagination := { page := page, page_size := page_size, total := 0, pages := 0 } }

/-- For nonnegative `t` and positive `b`, the Python idiom
`(t + b - 1) // b` computes `⌈t / b⌉`. -/
theorem fdiv_add_pred_eq_ceil (t b : ℤ) (_ht : 0 ≤ t) (hb : 0 < b) :
    Int.fdiv (t + b - 1) b = ⌈(t : ℚ) / (b : ℚ)⌉ := by
  have hbne : b ≠ 0 := ne_of_gt hb
  rw [Int.fdiv_eq_ediv _ (le_of_lt hb)]
  set n : ℤ := (t + b - 1) / b with hn
  have hub : t + b - 1 < (n + 1) * b := by
    have h1 : (t + b - 1) / b < n + 1 := by omega
    exact (Int.ediv_lt_iff_lt_mul hb).mp h1
  have hlb : n * b ≤ t + b - 1 := by
    have h1 : n ≤ (t + b - 1) / b := le_refl _
    exact (Int.le_ediv_iff_mul_le hb).mp h1
  have hbQ : (0 : ℚ) < (b : ℚ) := by exact_mod_cast hb
  symm
  rw [Int.ceil_eq_iff]
  constructor
  · rw [lt_div_iff₀ hbQ]
    have : (n - 1) * b < t := by nlinarith
    calc ((n : ℚ) - 1) * (b : ℚ) = (((n - 1) * b : ℤ) : ℚ) := by push_cast; ring
    _ < (t : ℚ) := by exact_mod_cast this
  · rw [div_le_iff₀ hbQ]
    have : t ≤ n * b := by nlinarith
    calc (t : ℚ) ≤ (((n * b : ℤ)) : ℚ) := by exact_mod_cast this
    _ = (n : ℚ) * (b : ℚ) := by push_cast; ring

/-- C1: For every call to listCasinos, the page returned in the pagination
metadata is ≥ 1, the page size returned is in [1,50], and the reported
pages equals ⌈total / pageSize⌉ for the reported total matching count. -/
theorem C1_list_casinos_pagination (dbOk : Bool) (casinos : List CasinoDoc)
    (country q : Option String) (page0 page_size0 : ℤ) (sort : Option String) :
    1 ≤ (list_casinos dbOk casinos country q page0 page_size0 sort).pagination.page ∧
    1 ≤ (list_casinos dbOk casinos country q page0 page_size0 sort).pagination.page_size ∧
    (list_casinos dbOk casinos country q page0 page_size0 sort).pagination.page_size ≤ 50 ∧
    (list_casinos dbOk casinos country q page0 page_size0 sort).pagination.pages =
      ⌈((list_casinos dbOk casinos country q page0 page_size0 sort).pagination.total : ℚ) /
        ((list_casinos dbOk casinos country q page0 page_size0 sort).pagination.page_size : ℚ)⌉ := by
  cases dbOk with
  | false =>
    refine ⟨?_, ?_, ?_, ?_⟩ <;> simp only [list_casinos] <;> split_ifs <;>
      first | omega | norm_num
  | true =>
    refine ⟨?_, ?_, ?_, ?_⟩ <;> simp only [list_casinos]
    · split_ifs <;> omega
    · split_ifs <;> omega
    · split_ifs <;> omega
    · apply fdiv_add_pred_eq_ceil
      · exact Int.ofNat_nonneg _
      · split_ifs <;> omega

/-! ### Casino detail (`GET /api/casinos/{slug}`, `get_casino`) and
rating aggregation -/

/-- A stored offer record (`schemas.Offer`). -/
structure OfferDoc where
  casino_slug : String
  title : String
  description : Option String := none
  bonus_amount : Option String := none
  wagering : Option String := none
  code : Option String := none
deriving DecidableEq, Repr

/-- A stored review record.  The schema declares `rating` as an integer in
[1,5], but the aggregation in `get_casino` defends against arbitrary stored
values, so the stored `rating` field is modelled dynamically:
`none` means the field is absent from the document. -/
structure ReviewDoc where
  casino_slug : String
  user_name : String := ""
  rating : Option PyVal := none
  comment : Option String := none
  status : String := "approved"
  moderation_notes : Option String := none
deriving DecidableEq, Repr

/-- Truncation toward zero: what Python `int()` does to a `float`. -/
def ratTrunc (q : ℚ) : ℤ := if 0 ≤ q then ⌊q⌋ else ⌈q⌉

/-- Digit-string value, used for Python `int()` applied to a string. -/
def digitsToNatAux : List Char → ℕ → Option ℕ
  | [], acc => some acc
  | c :: t, acc =>
    if c.isDigit then digitsToNatAux t (acc * 10 + (c.toNat - '0'.toNat)) else none

/-- Python `int(s)` for a canonical decimal string (optional sign then digits);
Python's extra whitespace/underscore tolerance is not modelled. -/
def parseIntStr : List Char → Option ℤ
  | [] => none
  | '-' :: t => if t.isEmpty then none else (digitsToNatAux t 0).map (fun n => -(n : ℤ))
  | '+' :: t => if t.isEmpty then none else (digitsToNatAux t 0).map (fun n => (n : ℤ))
  | l => (digitsToNatAux l 0).map (fun n => (n : ℤ))

/-- Python `int(v)` on a dynamic value: `none` when it raises
(`TypeError`/`ValueError`), which the aggregation loop catches. -/
def pyToIntOpt : PyVal → Option ℤ
  | .pInt n => some n
  | .pFloat q => some (ratTrunc q)
  | .pStr s => parseIntStr s.data
  | .pBool b => some (if b then 1 else 0)
  | .pTime _ => none
  | .pList _ => none
  | .pNone => none

/-- The star bucket a review lands in, if any:
`breakdown[str(int(r.get("rating", 0)))] += 1` succeeds exactly when
`int()` succeeds and its value is one of the keys "1".."5"; any exception
(`KeyError` included) is swallowed by the `except: pass`. -/
def bucketOf (r : ReviewDoc) : Option ℤ :=
  match pyToIntOpt (r.rating.getD (.pInt 0)) with
  | some n => if 1 ≤ n ∧ n ≤ 5 then some n else none
  | none => none

/-- Number of reviews tallied into star bucket `k`. -/
def countStar (rs : List ReviewDoc) (k : ℤ) : ℕ :=
  (rs.filter (fun r => bucketOf r = some k)).length

/-- CPython banker's rounding to an integer (round half to even); away
from exact ties it is ordinary rounding to nearest. -/
def roundHalfEven (x : ℚ) : ℤ :=
  if x - ⌊x⌋ = 1/2 then (if ⌊x⌋ % 2 = 0 then ⌊x⌋ else ⌊x⌋ + 1) else round x

/-- Python `round(x, 2)`, modelled exactly over the rationals. -/
def round2 (q : ℚ) : ℚ := (roundHalfEven (q * 100) : ℚ) / 100

/-- The `ratings` object computed by `get_casino`. -/
structure Ratings where
  b1 : ℕ
  b2 : ℕ
  b3 : ℕ
  b4 : ℕ
  b5 : ℕ
  total : ℕ
  average : Option ℚ
deriving DecidableEq, Repr

/-- Rating aggregation from `get_casino`: per-star tallies with defensive
skipping, `total_reviews = sum(breakdown.values())`, and the mean
`round(sum(k * v) / total, 2)` (or `None` when there are no tallied
reviews). -/
def ratingsOf (rs : List ReviewDoc) : Ratings :=
  let c1 := countStar rs 1
  let c2 := countStar rs 2
  let c3 := countStar rs 3
  let c4 := countStar rs 4
  let c5 := countStar rs 5
  let total := c1 + c2 + c3 + c4 + c5
  { b1 := c1, b2 := c2, b3 := c3, b4 := c4, b5 := c5, total := total,
    average :=
      if total = 0 then none
      else some (round2 ((1 * (c1 : ℚ) + 2 * (c2 : ℚ) + 3 * (c3 : ℚ)
                          + 4 * (c4 : ℚ) + 5 * (c5 : ℚ)) / (total : ℚ))) }

/-- Response body of `GET /api/casinos/{slug}`. -/
structure CasinoDetail where
  casino : CasinoDoc
  offers : List OfferDoc
  reviews : List ReviewDoc
  ratings : Ratings
deriving DecidableEq, Repr

/-- Handler `get_casino` from `main.py`: looks the casino up by slug alone (no
published filter), 404s when the lookup raises (`dbOk = false`) or returns
nothing, then joins offers and reviews by slug and aggregates ratings. -/
def get_casino (dbOk : Bool) (casinos : List CasinoDoc) (offers : List OfferDoc)
    (reviews : List ReviewDoc) (slug : String) : Except Err CasinoDetail :=
  match dbOk with
  | false => .error (404, "Casino not found")
  | true =>
    match casinos.filter (fun c => c.slug = slug) with
    | [] => .error (404, "Casino not found")
    | c :: _ =>
      let os := offers.filter (fun o => o.casino_slug = slug)
      let rs := reviews.filter (fun r => r.casino_slug = slug)
      .ok { casino := c, offers := os, reviews := rs, ratings := ratingsOf rs }

/-- Example casino for the C2 scenario. -/
def c2Casino : CasinoDoc :=
  { name := "Lucky Spin", slug := "lucky-spin", affiliate_url := "https://aff.example/lucky" }

/-- A well-formed integer-rated review on the example casino. -/
def c2Review (n : ℤ) : ReviewDoc :=
  { casino_slug := "lucky-spin", user_name := "u", rating := some (.pInt n) }

/-- The C2 review set, rated [5, 5, 4, 3]. -/
def c2Reviews : List ReviewDoc := [c2Review 5, c2Review 5, c2Review 4, c2Review 3]

/-- C2: getCasinoDetail counts reviews per star value 1–5 and reports the
total and the 2-decimal-rounded mean; on reviews rated [5,5,4,3] the
breakdown is {1:0,2:0,3:1,4:1,5:2} with total 4 and average 4.25, and for
a casino with zero reviews the average is null and the total is 0. -/
theorem C2_rating_breakdown :
    (get_casino true [c2Casino] [] c2Reviews "lucky-spin" =
      .ok { casino := c2Casino, offers := [], reviews := c2Reviews,
            ratings := { b1 := 0, b2 := 0, b3 := 1, b4 := 1, b5 := 2, total := 4,
                         average := some 4.25 } }) ∧
    (∀ (casinos : List CasinoDoc) (offers : List OfferDoc) (reviews : List ReviewDoc)
        (s : String) (c : CasinoDoc) (tl : List CasinoDoc),
      casinos.filter (fun c' => c'.slug = s) = c :: tl →
      reviews.filter (fun r => r.casino_slug = s) = [] →
      get_casino true casinos offers reviews s =
        .ok { casino := c, offers := offers.filter (fun o => o.casino_slug = s),
              reviews := [],
              ratings := { b1 := 0, b2 := 0, b3 := 0, b4 := 0, b5 := 0,
                           total := 0, average := none } }) := by
  constructor
  · have hflt : [c2Casino].filter (fun c => c.slug = "lucky-spin") = [c2Casino] := rfl
    have hrs : c2Reviews.filter (fun r => r.casino_slug = "lucky-spin") = c2Reviews := rfl
    have hcount : countStar c2Reviews 1 = 0 ∧ countStar c2Reviews 2 = 0 ∧
        countStar c2Reviews 3 = 1 ∧ countStar c2Reviews 4 = 1 ∧
        countStar c2Reviews 5 = 2 := by
      refine ⟨rfl, rfl, rfl, rfl, rfl⟩
    simp only [get_casino, hflt, hrs, ratingsOf, hcount.1, hcount.2.1, hcount.2.2.1,
      hcount.2.2.2.1, hcount.2.2.2.2]
    norm_num [round2, roundHalfEven]
  · intro casinos offers reviews s c tl h1 h2
    simp only [get_casino, h1, h2, ratingsOf, countStar, List.filter_nil,
      List.length_nil]
    norm_num

/-- Closed witness for the zero-review branch of `C2_rating_breakdown`. -/
theorem C2_rating_breakdown_witness :
    get_casino true [c2Casino] [] [] "lucky-spin" =
      .ok { casino := c2Casino, offers := [], reviews := [],
            ratings := { b1 := 0, b2 := 0, b3 := 0, b4 := 0, b5 := 0,
                         total := 0, average := none } } :=
  C2_rating_breakdown.2 [c2Casino] [] [] "lucky-spin" c2Casino [] rfl rfl

/-- Casino for the C3 scenario. -/
def c3Casino : CasinoDoc :=
  { name := "Royal Flush", slug := "royal-flush", affiliate_url := "https://aff.example/royal" }

/-- A stored review whose rating is the non-integer float 4.5. -/
def c3Review : ReviewDoc :=
  { casino_slug := "royal-flush", user_name := "v", rating := some (.pFloat (9/2)) }

/-- A stored review whose rating field holds `None` (int() raises, so the
tally skips it). -/
def c3NoneReview : ReviewDoc :=
  { casino_slug := "royal-flush", user_name := "w", rating := some .pNone }

/-- C3 counterexample: a stored review with the non-integer rating 4.5 is
NOT skipped — `int(4.5)` truncates to 4, so the review lands in star
bucket 4 and raises the total to 1 (and the average becomes 4), refuting
"every review whose rating is not an integer ... contributes to no star
bucket, the total, or the average". -/
theorem C3_counterexample :
    get_casino true [c3Casino] [] [c3Review] "royal-flush" =
      .ok { casino := c3Casino, offers := [], reviews := [c3Review],
            ratings := { b1 := 0, b2 := 0, b3 := 0, b4 := 1, b5 := 0, total := 1,
                         average := some 4 } } ∧
    ¬((ratingsOf [c3Review]).total = 0 ∧ (ratingsOf [c3Review]).b4 = 0) := by
  have hb : bucketOf c3Review = some 4 := by
    have ht : ratTrunc (9/2) = 4 := by norm_num [ratTrunc]
    simp [bucketOf, c3Review, pyToIntOpt, ht]
  have hflt : [c3Casino].filter (fun c => c.slug = "royal-flush") = [c3Casino] := rfl
  have hrs : ([c3Review] : List ReviewDoc).filter
      (fun r => r.casino_slug = "royal-flush") = [c3Review] := rfl
  have hcs : ∀ k : ℤ, countStar [c3Review] k = if k = 4 then 1 else 0 := by
    intro k
    by_cases hk : k = 4 <;> simp [countStar, List.filter, hb, hk, eq_comm]
  have hr : ratingsOf [c3Review] =
      { b1 := 0, b2 := 0, b3 := 0, b4 := 1, b5 := 0, total := 1, average := some 4 } := by
    simp only [ratingsOf, hcs]
    norm_num [round2, roundHalfEven]
  refine ⟨?_, ?_⟩
  · simp only [get_casino, hflt, hrs, hr, List.filter_nil]
  · rw [hr]; simp

/-- C3 amended: a review whose rating fails `int()` conversion, or whose
`int()`-value lies outside 1–5, contributes to no star bucket, the total,
or the average, and the aggregation never aborts; but a non-integer
numeric rating is truncated toward zero by `int()` and IS tallied whenever
the truncation lands in 1–5. -/
theorem C3_skip_amended :
    (∀ (l1 l2 : List ReviewDoc) (r : ReviewDoc), bucketOf r = none →
        ratingsOf (l1 ++ r :: l2) = ratingsOf (l1 ++ l2)) ∧
    (∀ (q : ℚ) (sl un : String),
        bucketOf { casino_slug := sl, user_name := un, rating := some (.pFloat q) } =
          if 1 ≤ ratTrunc q ∧ ratTrunc q ≤ 5 then some (ratTrunc q) else none) ∧
    (∀ (casinos : List CasinoDoc) (offers : List OfferDoc) (reviews : List ReviewDoc)
        (s : String) (c : CasinoDoc) (tl : List CasinoDoc),
        casinos.filter (fun c' => c'.slug = s) = c :: tl →
        get_casino true casinos offers reviews s =
          .ok { casino := c, offers := offers.filter (fun o => o.casino_slug = s),
                reviews := reviews.filter (fun r => r.casino_slug = s),
                ratings := ratingsOf (reviews.filter (fun r => r.casino_slug = s)) }) := by
  refine ⟨?_, ?_, ?_⟩
  · intro l1 l2 r h
    have hcs : ∀ k : ℤ, countStar (l1 ++ r :: l2) k = countStar (l1 ++ l2) k := by
      intro k
      simp [countStar, List.filter_append, List.filter_cons, h]
    simp only [ratingsOf, hcs]
  · intro q sl un
    simp [bucketOf, pyToIntOpt]
  · intro casinos offers reviews s c tl h1
    simp only [get_casino, h1]

/-- Closed witness for `C3_skip_amended`: a review whose stored rating is
`None` makes `int()` raise and is skipped. -/
theorem C3_skip_amended_witness :
    ratingsOf [c3NoneReview] = ratingsOf [] :=
  C3_skip_amended.1 [] [] c3NoneReview rfl

/-! ### The Persistence Gateway and document-level endpoint models

For the claims about timestamps and raw inserts, collections are modelled
at the key-value level: a collection is a `List DocKV`, inserts append,
and the generated object id is abstracted as the insertion index. -/

/-- Gateway `create_document` from `database.py`: shallow-copies the data
and stamps `created_at` / `updated_at` with the current UTC instant
(overwriting those keys if the caller supplied them) before inserting. -/
def create_document (data : DocKV) (now : ℕ) : DocKV :=
  setKey (setKey data "created_at" (.pTime now)) "updated_at" (.pTime now)

theorem getKey_setKey_self (d : DocKV) (k : String) (v : PyVal) :
    getKey (setKey d k v) k = some v := by
  induction d with
  | nil => simp [setKey, getKey]
  | cons hd t ih =>
    obtain ⟨k', v'⟩ := hd
    by_cases h : k' = k <;> simp [setKey, getKey, h, ih]

theorem getKey_setKey_ne (d : DocKV) (k k2 : String) (v : PyVal) (h : ¬k2 = k) :
    getKey (setKey d k v) k2 = getKey d k2 := by
  induction d with
  | nil => simp [setKey, getKey, Ne.symm h]
  | cons hd t ih =>
    obtain ⟨k', v'⟩ := hd
    by_cases h' : k' = k
    · subst h'
      simp [setKey, getKey, Ne.symm h]
    · simp [setKey, getKey, h', ih]

/-- The gateway stamps both timestamps on every document it inserts. -/
theorem create_document_stamps (data : DocKV) (now : ℕ) :
    getKey (create_document data now) "created_at" = some (.pTime now) ∧
    getKey (create_document data now) "updated_at" = some (.pTime now) := by
  constructor
  · rw [create_document, getKey_setKey_ne _ _ _ _ (by decide), getKey_setKey_self]
  · rw [create_document, getKey_setKey_self]

/-- Field dump of a casino payload (`payload.model_dump()` of the
`Casino` model), in schema declaration order. -/
def casinoToKV (c : CasinoDoc) : DocKV :=
  [("name", .pStr c.name), ("slug", .pStr c.slug), ("logo_url", optStrVal c.logo_url),
   ("affiliate_url", .pStr c.affiliate_url), ("bonus_text", optStrVal c.bonus_text),
   ("features", .pList c.features), ("supported_countries", .pList c.supported_countries),
   ("base_score", .pFloat c.base_score), ("pros", .pList c.pros), ("cons", .pList c.cons),
   ("payment_methods", .pList c.payment_methods), ("providers", .pList c.providers),
   ("gallery", .pList c.gallery), ("seo_title", optStrVal c.seo_title),
   ("seo_description", optStrVal c.seo_description), ("is_published", .pBool c.is_published)]

/-- The duplicate check `collection(...).find_one({"slug": slug})` cast to
a boolean (Python truthiness of the found document). -/
def slugTaken (store : List DocKV) (slug : String) : Bool :=
  store.any (fun d => getKey d "slug" = some (.pStr slug))

/-- Handler `admin_create_casino`: reject a duplicate slug with the
duplicate-unique-key error (HTTP 400, "Slug already exists") inserting
nothing, otherwise persist the full payload through the gateway. -/
def admin_create_casino (store : List DocKV) (p : CasinoDoc) (now : ℕ) :
    Except Err String × List DocKV :=
  if slugTaken store p.slug then ((.error (400, "Slug already exists")), store)
  else ((.ok (toString store.length)), store ++ [create_document (casinoToKV p) now])

/-- C4: an admin casino-create whose slug already exists fails with the
Conflict (duplicate unique key) error and persists nothing; when the slug
is free the full casino record is persisted (through the gateway). -/
theorem C4_create_casino_conflict (store : List DocKV) (p : CasinoDoc) (now : ℕ) :
    (slugTaken store p.slug = true →
      admin_create_casino store p now = ((.error (400, "Slug already exists")), store)) ∧
    (slugTaken store p.slug = false →
      admin_create_casino store p now =
        ((.ok (toString store.length)), store ++ [create_document (casinoToKV p) now]) ∧
      getKey (create_document (casinoToKV p) now) "slug" = some (.pStr p.slug) ∧
      getKey (create_document (casinoToKV p) now) "name" = some (.pStr p.name)) := by
  constructor
  · intro h
    simp [admin_create_casino, h]
  · intro h
    refine ⟨by simp [admin_create_casino, h], ?_, ?_⟩
    · rw [create_document, getKey_setKey_ne _ _ _ _ (by decide),
        getKey_setKey_ne _ _ _ _ (by decide)]
      rfl
    · rw [create_document, getKey_setKey_ne _ _ _ _ (by decide),
        getKey_setKey_ne _ _ _ _ (by decide)]
      rfl

/-- Concrete casino payload for the C4 witness. -/
def c4Casino : CasinoDoc :=
  { name := "Spin City", slug := "spin-city", affiliate_url := "https://aff.example/spin" }

/-- Closed witness for `C4_create_casino_conflict`: creating into an empty
collection (slug free) persists the stamped record; creating again with
the same slug is rejected and persists nothing. -/
theorem C4_create_casino_conflict_witness :
    (admin_create_casino [] c4Casino 7 =
      ((.ok "0"), [create_document (casinoToKV c4Casino) 7]) ∧
      getKey (create_document (casinoToKV c4Casino) 7) "slug" = some (.pStr "spin-city") ∧
      getKey (create_document (casinoToKV c4Casino) 7) "name" = some (.pStr "Spin City")) ∧
    admin_create_casino [create_document (casinoToKV c4Casino) 7] c4Casino 8 =
      ((.error (400, "Slug already exists")), [create_document (casinoToKV c4Casino) 7]) :=
  ⟨(C4_create_casino_conflict [] c4Casino 7).2 rfl,
   (C4_create_casino_conflict [create_document (casinoToKV c4Casino) 7] c4Casino 8).1 rfl⟩

/-! ### Blog endpoints and the writes that bypass the gateway (C5, C8) -/

/-- An authenticated admin user as returned by `get_current_user`. -/
structure AdminUserRec where
  email : String
  role : String := "admin"
  is_active : Bool := true
deriving DecidableEq, Repr

/-- Blog create/update payload (`BlogUpsert`); `status` is the literal
"draft" or "published", `published_at` an optional instant. -/
structure BlogUpsert where
  title : String
  slug : String
  cover_image : Option String := none
  content : String
  tags : List String := []
  status : String := "draft"
  author_email : Option String := none
  published_at : Option ℕ := none
  seo_title : Option String := none
  seo_description : Option String := none
deriving DecidableEq, Repr

/-- Field dump of a blog payload (`payload.model_dump()`), in declaration
order. -/
def blogToKV (p : BlogUpsert) : DocKV :=
  [("title", .pStr p.title), ("slug", .pStr p.slug),
   ("cover_image", optStrVal p.cover_image), ("content", .pStr p.content),
   ("tags", .pList p.tags), ("status", .pStr p.status),
   ("author_email", optStrVal p.author_email),
   ("published_at", optTimeVal p.published_at),
   ("seo_title", optStrVal p.seo_title),
   ("seo_description", optStrVal p.seo_description)]

/-- The document `admin_create_blog` inserts: the raw payload dump, with
`published_at` stamped when the status is "published" and the field is
falsy, then `author_email` overwritten from the authenticated caller.
NOTE: it is inserted via a raw `insert_one`, not via the gateway's
`create_document`, so no `created_at`/`updated_at` stamping occurs. -/
def blogInsertedDoc (p : BlogUpsert) (user : AdminUserRec) (now : ℕ) : DocKV :=
  let doc := blogToKV p
  let doc2 :=
    if getKey doc "status" = some (.pStr "published")
        ∧ truthyVal ((getKey doc "published_at").getD .pNone) = false
    then setKey doc "published_at" (.pTime now) else doc
  setKey doc2 "author_email" (.pStr user.email)

/-- Handler `admin_create_blog`: duplicate-slug check, then a raw insert
of `blogInsertedDoc`. -/
def admin_create_blog (store : List DocKV) (p : BlogUpsert) (user : AdminUserRec)
    (now : ℕ) : Except Err String × List DocKV :=
  if slugTaken store p.slug then ((.error (400, "Slug already exists")), store)
  else ((.ok (toString store.length)), store ++ [blogInsertedDoc p user now])

/-- The document `seed_admin` inserts directly (handler-set `created_at`,
no `updated_at`, no gateway). -/
def seed_admin_doc (email password_hash : String) (now : ℕ) : DocKV :=
  [("email", .pStr email), ("password_hash", .pStr password_hash),
   ("role", .pStr "admin"), ("is_active", .pBool true), ("created_at", .pTime now)]

/-- The metadata document `upload_media` inserts directly (handler-set
`created_at`, no `updated_at`, no gateway, no file bytes). -/
def upload_media_doc (filename : String) (content_type : Option String)
    (size : ℕ) (now : ℕ) : DocKV :=
  [("filename", .pStr filename), ("content_type", optStrVal content_type),
   ("size", .pInt size), ("storage", .pStr "gridfs"), ("created_at", .pTime now)]

/-- Concrete blog payload for the C5 counterexample. -/
def c5Payload : BlogUpsert :=
  { title := "Hello", slug := "hello", content := "Welcome post body" }

/-- Concrete caller for the C5 counterexample. -/
def c5User : AdminUserRec := { email := "editor@example.com", role := "editor" }

/-- C5 counterexample: the blog-create write persists a record that
carries NO `created_at` and NO `updated_at` (it bypasses the Persistence
Gateway), refuting "every record persisted by any write operation ...
carries created_at and updated_at ... stamped ... by the Persistence
Gateway". -/
theorem C5_counterexample :
    admin_create_blog [] c5Payload c5User 1000 =
      ((.ok "0"), [blogInsertedDoc c5Payload c5User 1000]) ∧
    getKey (blogInsertedDoc c5Payload c5User 1000) "created_at" = none ∧
    getKey (blogInsertedDoc c5Payload c5User 1000) "updated_at" = none := by
  refine ⟨rfl, rfl, rfl⟩

/-- C5 amended: records persisted through the Persistence Gateway's
create operation (reviews, offers, clicks, casino create/seed) do carry
`created_at` and `updated_at` stamped with the current UTC time by the
gateway, overriding any caller-supplied values; but blog-create inserts
its record with neither timestamp, and the admin-seed and media-upload
inserts carry only a handler-set `created_at` and no `updated_at`. -/
theorem C5_timestamps_amended :
    (∀ (data : DocKV) (now : ℕ),
        getKey (create_document data now) "created_at" = some (.pTime now) ∧
        getKey (create_document data now) "updated_at" = some (.pTime now)) ∧
    (∀ (p : BlogUpsert) (user : AdminUserRec) (now : ℕ),
        getKey (blogInsertedDoc p user now) "created_at" = none ∧
        getKey (blogInsertedDoc p user now) "updated_at" = none) ∧
    (∀ (email pwh : String) (now : ℕ),
        getKey (seed_admin_doc email pwh now) "created_at" = some (.pTime now) ∧
        getKey (seed_admin_doc email pwh now) "updated_at" = none) ∧
    (∀ (fn : String) (ct : Option String) (size now : ℕ),
        getKey (upload_media_doc fn ct size now) "created_at" = some (.pTime now) ∧
        getKey (upload_media_doc fn ct size now) "updated_at" = none) := by
  refine ⟨create_document_stamps, ?_, ?_, ?_⟩
  · intro p user now
    constructor <;>
    · simp only [blogInsertedDoc]
      rw [getKey_setKey_ne _ _ _ _ (by decide)]
      split_ifs
      · rw [getKey_setKey_ne _ _ _ _ (by decide)]
        rfl
      · rfl
  · intro email pwh now
    exact ⟨rfl, rfl⟩
  · intro fn ct size now
    exact ⟨rfl, rfl⟩

/-! ### C6: the `q` parameter is a regex, not a literal substring -/

/-- Published casino named "xy" for the C6 counterexample. -/
def c6Casino : CasinoDoc :=
  { name := "xy", slug := "xy", affiliate_url := "https://aff.example/xy" }

/-- C6 counterexample: with `q = "."` the casino named "xy" is returned by
listCasinos (the pattern "." matches any character of the name), although
"." is not a case-insensitive substring of "xy" — so the returned items
are not "exactly the published casinos whose name contains q as a
case-insensitive substring". -/
theorem C6_counterexample :
    (list_casinos true [c6Casino] none (some ".") 1 10 none).items = [c6Casino] ∧
    containsCI (String.data ".") (String.data "xy") = false ∧
    c6Casino.name = "xy" ∧ c6Casino.is_published = true := by
  exact ⟨rfl, rfl, rfl, rfl⟩

/-- C6 amended: the query `q` is interpreted as a case-insensitive regular
expression over the name (so for `q` free of regex metacharacters it is a
substring match, but e.g. `.` matches any character): every returned item
is a published casino whose name matches `q` as a regex, and — sound in
the other direction — when the first page is requested with a page size
that covers all matches and no country filter, every published casino
whose name matches `q` is returned. -/
theorem C6_query_regex_amended :
    (∀ (dbOk : Bool) (casinos : List CasinoDoc) (country q : Option String)
        (page0 page_size0 : ℤ) (sort : Option String) (c : CasinoDoc),
        c ∈ (list_casinos dbOk casinos country q page0 page_size0 sort).items →
        c.is_published = true ∧
        (truthyOptStr q = true → regexSearch ((q.getD "").data) c.name.data = true)) ∧
    (∀ (casinos : List CasinoDoc) (q : Option String) (page_size0 : ℤ)
        (sort : Option String) (c : CasinoDoc),
        1 ≤ page_size0 → page_size0 ≤ 50 →
        ((casinos.filter (casinoFilter none q)).length : ℤ) ≤ page_size0 →
        c ∈ casinos → casinoFilter none q c = true →
        c ∈ (list_casinos true casinos none q 1 page_size0 sort).items) := by
  constructor
  · intro dbOk casinos country q page0 page_size0 sort c hc
    cases dbOk with
    | false => simp [list_casinos] at hc
    | true =>
      simp only [list_casinos] at hc
      have h1 : c ∈ List.insertionSort
          (fun a b => sortLe sort a b = true)
          (casinos.filter (casinoFilter country q)) :=
        List.drop_subset _ _ (List.take_subset _ _ hc)
      have h2 : c ∈ casinos.filter (casinoFilter country q) :=
        (List.mem_insertionSort _).mp h1
      have h3 : casinoFilter country q c = true := (List.mem_filter.mp h2).2
      rw [casinoFilter] at h3
      simp only [Bool.and_eq_true] at h3
      refine ⟨h3.1.1, ?_⟩
      intro hq
      have := h3.2
      rwa [if_pos hq] at this
  · intro casinos q page_size0 sort c h1 h50 hlen hc hm
    have hps : ¬(page_size0 < 1 ∨ page_size0 > 50) := by omega
    have hpg : ¬((1 : ℤ) < 1) := by omega
    simp only [list_casinos, hps, hpg, if_false]
    have hz : (((1 : ℤ) - 1) * page_size0).toNat = 0 := by
      norm_num
    rw [hz, List.drop_zero]
    have hle : (List.insertionSort (fun a b => sortLe sort a b = true)
        (casinos.filter (casinoFilter none q))).length ≤ page_size0.toNat := by
      rw [List.length_insertionSort]
      omega
    rw [List.take_of_length_le hle]
    exact (List.mem_insertionSort _).mpr (List.mem_filter.mpr ⟨hc, hm⟩)

/-- Closed witness for `C6_query_regex_amended` (completeness direction at
the counterexample input). -/
theorem C6_query_regex_amended_witness :
    c6Casino ∈ (list_casinos true [c6Casino] none (some ".") 1 10 none).items :=
  C6_query_regex_amended.2 [c6Casino] (some ".") 10 none c6Casino
    (by norm_num) (by norm_num) (by decide) (List.mem_cons_self _ _) (by decide)

/-! ### C7: click tracking (`POST /api/click`, `track_click`) -/

/-- Click payload (`schemas.Click`): the caller MAY supply
`user_agent`/`ip`, which the handler overwrites. -/
structure ClickPayload where
  casino_slug : String
  source : Option String := none
  user_agent : Option String := none
  ip : Option String := none
deriving DecidableEq, Repr

/-- Field dump of a click payload. -/
def clickToKV (p : ClickPayload) : DocKV :=
  [("casino_slug", .pStr p.casino_slug), ("source", optStrVal p.source),
   ("user_agent", optStrVal p.user_agent), ("ip", optStrVal p.ip)]

/-- Request context: the user-agent header and the client host, either of
which may be absent (`request.client` may be `None`). -/
structure ReqCtx where
  user_agent : Option String := none
  client_host : Option String := none
deriving DecidableEq, Repr

/-- Response of `POST /api/click`. -/
structure ClickResp where
  id : Option String
  status : String
deriving DecidableEq, Repr

/-- Handler `track_click`: overwrite `user_agent`/`ip` from the request,
then try the gateway insert; on any storage failure (`dbOk = false`) still
acknowledge with a null id.  `newId` abstracts the generated object id. -/
def track_click (dbOk : Bool) (p : ClickPayload) (req : ReqCtx) (now : ℕ)
    (newId : String) : ClickResp × Option DocKV :=
  let data := setKey (setKey (clickToKV p) "user_agent" (optStrVal req.user_agent))
    "ip" (optStrVal req.client_host)
  match dbOk with
  | true => ({ id := some newId, status := "ok" }, some (create_document data now))
  | false => ({ id := none, status := "ok" }, none)

/-- C7: the persisted click record's user-agent and IP fields equal the
request-derived values whatever the caller supplied, and the endpoint
reports an ok status in every case — with the new identifier on success
and a null identifier when persistence is unreachable. -/
theorem C7_track_click (p : ClickPayload) (req : ReqCtx) (now : ℕ) (newId : String) :
    ((track_click true p req now newId).1.status = "ok" ∧
     (track_click true p req now newId).1.id = some newId ∧
     ∃ doc, (track_click true p req now newId).2 = some doc ∧
       getKey doc "user_agent" = some (optStrVal req.user_agent) ∧
       getKey doc "ip" = some (optStrVal req.client_host)) ∧
    track_click false p req now newId = ({ id := none, status := "ok" }, none) := by
  refine ⟨⟨rfl, rfl, ?_⟩, rfl⟩
  refine ⟨_, rfl, ?_, ?_⟩
  · rw [create_document, getKey_setKey_ne _ _ _ _ (by decide),
      getKey_setKey_ne _ _ _ _ (by decide), getKey_setKey_ne _ _ _ _ (by decide),
      getKey_setKey_self]
  · rw [create_document, getKey_setKey_ne _ _ _ _ (by decide),
      getKey_setKey_ne _ _ _ _ (by decide), getKey_setKey_self]

/-! ### C8: `published_at` stamping on blog create vs update -/

/-- Mongo `$set` with a full field dump: fold the update document into the
stored document key by key (`update_one(..., {"$set": doc})`). -/
def applySet (d : DocKV) (upd : DocKV) : DocKV :=
  upd.foldl (fun acc kv => setKey acc kv.1 kv.2) d

/-- Update the first document matching `pred` (Mongo `update_one`);
`none` when nothing matched (`matched_count == 0`). -/
def updateFirst (pred : DocKV → Bool) (f : DocKV → DocKV) :
    List DocKV → Option (List DocKV)
  | [] => none
  | d :: ds => if pred d then some (f d :: ds)
               else (updateFirst pred f ds).map (fun t => d :: t)

/-- Handler `admin_update_blog`: full `$set` replace by slug, 404 when no
record matched — and no `published_at` logic at all. -/
def admin_update_blog (store : List DocKV) (slug : String) (p : BlogUpsert) :
    Except Err Bool × List DocKV :=
  match updateFirst (fun d => getKey d "slug" = some (.pStr slug))
      (fun d => applySet d (blogToKV p)) store with
  | none => ((.error (404, "Blog not found")), store)
  | some store2 => ((.ok true), store2)

/-- Draft blog post stored before the C8 update. -/
def c8Draft : BlogUpsert :=
  { title := "Launch", slug := "launch", content := "draft body", status := "draft" }

/-- Author of the stored C8 draft. -/
def c8User : AdminUserRec := { email := "author@example.com", role := "editor" }

/-- Store holding just the C8 draft (as created by blog-create). -/
def c8Store : List DocKV := [blogInsertedDoc c8Draft c8User 50]

/-- Update payload that makes the post published for the first time, with
`published_at` absent. -/
def c8PublishPayload : BlogUpsert :=
  { title := "Launch", slug := "launch", content := "final body", status := "published" }

/-- C8 counterexample: updating a stored draft to status "published" with
`published_at` absent leaves `published_at` as null in the stored record —
the update path never stamps it, refuting "for every blog-post write
(create or update) ... published_at is set automatically". -/
theorem C8_counterexample :
    admin_update_blog c8Store "launch" c8PublishPayload =
      ((.ok true),
       [applySet (blogInsertedDoc c8Draft c8User 50) (blogToKV c8PublishPayload)]) ∧
    getKey (blogInsertedDoc c8Draft c8User 50) "status" = some (.pStr "draft") ∧
    getKey (applySet (blogInsertedDoc c8Draft c8User 50) (blogToKV c8PublishPayload))
      "status" = some (.pStr "published") ∧
    getKey (applySet (blogInsertedDoc c8Draft c8User 50) (blogToKV c8PublishPayload))
      "published_at" = some .pNone := by
  exact ⟨rfl, rfl, rfl, rfl⟩

/-- C8 amended: only blog CREATE stamps `published_at` (with the current
time, when the payload's status is "published" and its `published_at` is
absent) and stamps `author_email` from the authenticated caller; blog
UPDATE is a full replace that stores the payload's `published_at` (and
`author_email`) verbatim, with no automatic stamping. -/
theorem C8_publish_stamp_amended :
    (∀ (p : BlogUpsert) (user : AdminUserRec) (now : ℕ),
        getKey (blogInsertedDoc p user now) "published_at" =
          (if p.status = "published" ∧ p.published_at = none
           then some (.pTime now) else some (optTimeVal p.published_at)) ∧
        getKey (blogInsertedDoc p user now) "author_email" = some (.pStr user.email)) ∧
    (∀ (d : DocKV) (p : BlogUpsert),
        getKey (applySet d (blogToKV p)) "published_at" = some (optTimeVal p.published_at) ∧
        getKey (applySet d (blogToKV p)) "author_email" = some (optStrVal p.author_email)) := by
  constructor
  · intro p user now
    constructor
    · simp only [blogInsertedDoc]
      rw [getKey_setKey_ne _ _ _ _ (by decide)]
      by_cases hc : p.status = "published" ∧ p.published_at = none
      · rw [if_pos hc]
        have hd : getKey (blogToKV p) "status" = some (PyVal.pStr "published")
            ∧ truthyVal ((getKey (blogToKV p) "published_at").getD PyVal.pNone) = false := by
          constructor
          · show some (PyVal.pStr p.status) = _
            rw [hc.1]
          · rw [show getKey (blogToKV p) "published_at" = some (optTimeVal p.published_at)
              from rfl, hc.2]
            rfl
        rw [if_pos hd, getKey_setKey_self]
      · rw [if_neg hc]
        have hd : ¬(getKey (blogToKV p) "status" = some (PyVal.pStr "published")
            ∧ truthyVal ((getKey (blogToKV p) "published_at").getD PyVal.pNone) = false) := by
          rintro ⟨hs, hv⟩
          apply hc
          constructor
          · have hs2 : some (PyVal.pStr p.status) = some (PyVal.pStr "published") := hs
            simpa using hs2
          · cases hp : p.published_at with
            | none => rfl
            | some t =>
              rw [show getKey (blogToKV p) "published_at" = some (optTimeVal p.published_at)
                from rfl, hp] at hv
              simp [optTimeVal, truthyVal] at hv
        rw [if_neg hd]
        rfl
    · simp only [blogInsertedDoc]
      rw [getKey_setKey_self]
  · intro d p
    constructor
    · simp only [applySet, blogToKV, List.foldl]
      rw [getKey_setKey_ne _ _ _ _ (by decide), getKey_setKey_ne _ _ _ _ (by decide),
        getKey_setKey_self]
    · simp only [applySet, blogToKV, List.foldl]
      rw [getKey_setKey_ne _ _ _ _ (by decide), getKey_setKey_ne _ _ _ _ (by decide),
        getKey_setKey_ne _ _ _ _ (by decide), getKey_setKey_self]

/-! ### C9: authentication and the unreachable secret fallback in
`create_offer` -/

/-- State of the bearer token on a request: absent (the OAuth2 scheme
rejects before the handler), failing signature/expiry verification
(`JWTError`), or a decoded payload whose `sub` claim may be missing. -/
inductive TokenState where
  | missing
  | badToken
  | payload (sub : Option String)
deriving DecidableEq, Repr

/-- Dependency `get_current_user`: verify the token, extract `sub`, look
the user up by email, and require the account to be active; every failure
is a 401. -/
def get_current_user (users : List AdminUserRec) (tok : TokenState) :
    Except Err AdminUserRec :=
  match tok with
  | .missing => .error (401, "Not authenticated")
  | .badToken => .error (401, "Could not validate credentials")
  | .payload none => .error (401, "Could not validate credentials")
  | .payload (some email) =>
    match users.find? (fun u => u.email = email) with
    | none => .error (401, "Could not validate credentials")
    | some u =>
      if u.is_active then .ok u else .error (401, "Could not validate credentials")

/-- Dependency factory `require_roles`: authenticate, then 403 unless the
user's role is in the allowed set. -/
def require_roles (roles : List String) (users : List AdminUserRec)
    (tok : TokenState) : Except Err AdminUserRec :=
  match get_current_user users tok with
  | .error e => .error e
  | .ok u => if roles.contains u.role then .ok u else .error (403, "Insufficient permissions")

theorem get_current_user_error_status (users : List AdminUserRec) (tok : TokenState)
    (e : Err) (h : get_current_user users tok = .error e) : e.1 = 401 := by
  unfold get_current_user at h
  repeat' split at h
  all_goals first
    | (injection h with h2; rw [← h2])
    | exact absurd h (by simp)

theorem require_roles_error_status (roles : List String) (users : List AdminUserRec)
    (tok : TokenState) (e : Err) (h : require_roles roles users tok = .error e) :
    e.1 = 401 ∨ e.1 = 403 := by
  unfold require_roles at h
  split at h
  next e2 hg =>
    injection h with h2
    subst h2
    exact Or.inl (get_current_user_error_status users tok e2 hg)
  next u hg =>
    split at h
    next => exact absurd h (by simp)
    next => injection h with h2; rw [← h2]; exact Or.inr rfl

/-- Offer creation payload (`NewOffer`). -/
structure NewOffer where
  casino_slug : String
  title : String
  description : Option String := none
  bonus_amount : Option String := none
  wagering : Option String := none
  code : Option String := none
deriving DecidableEq, Repr

/-- Field dump of an offer payload. -/
def offerToKV (p : NewOffer) : DocKV :=
  [("casino_slug", .pStr p.casino_slug), ("title", .pStr p.title),
   ("description", optStrVal p.description), ("bonus_amount", optStrVal p.bonus_amount),
   ("wagering", optStrVal p.wagering), ("code", optStrVal p.code)]

/-- Body of the `create_offer` handler, as written: a legacy-secret
fallback branch guarded by `user is None`, then the referenced-casino
existence check, then the gateway insert. -/
def create_offer_body (admin_secret x_admin_secret : Option String)
    (user : Option AdminUserRec) (casinoStore offerStore : List DocKV)
    (p : NewOffer) (now : ℕ) : Except Err String × List DocKV :=
  if truthyOptStr admin_secret = true ∧ ¬(x_admin_secret = admin_secret) ∧ user = none
  then ((.error (401, "Unauthorized")), offerStore)
  else if slugTaken casinoStore p.casino_slug = false
  then ((.error (400, "Casino does not exist")), offerStore)
  else ((.ok (toString offerStore.length)), offerStore ++ [create_document (offerToKV p) now])

/-- Endpoint `POST /api/offers`: FastAPI evaluates the
`require_roles("admin","editor")` dependency before the handler body runs,
and the body receives the authenticated user. -/
def create_offer (users : List AdminUserRec) (tok : TokenState)
    (admin_secret x_admin_secret : Option String)
    (casinoStore offerStore : List DocKV) (p : NewOffer) (now : ℕ) :
    Except Err String × List DocKV :=
  match require_roles ["admin", "editor"] users tok with
  | .error e => ((.error e), offerStore)
  | .ok u => create_offer_body admin_secret x_admin_secret (some u) casinoStore offerStore p now

/-- Body of `create_offer` with the secret-fallback branch deleted. -/
def create_offer_body_noFallback (casinoStore offerStore : List DocKV)
    (p : NewOffer) (now : ℕ) : Except Err String × List DocKV :=
  if slugTaken casinoStore p.casino_slug = false
  then ((.error (400, "Casino does not exist")), offerStore)
  else ((.ok (toString offerStore.length)), offerStore ++ [create_document (offerToKV p) now])

/-- Endpoint `POST /api/offers` with the fallback branch deleted. -/
def create_offer_noFallback (users : List AdminUserRec) (tok : TokenState)
    (casinoStore offerStore : List DocKV) (p : NewOffer) (now : ℕ) :
    Except Err String × List DocKV :=
  match require_roles ["admin", "editor"] users tok with
  | .error e => ((.error e), offerStore)
  | .ok _ => create_offer_body_noFallback casinoStore offerStore p now

theorem create_offer_body_some (admin_secret x_admin_secret : Option String)
    (u : AdminUserRec) (casinoStore offerStore : List DocKV) (p : NewOffer) (now : ℕ) :
    create_offer_body admin_secret x_admin_secret (some u) casinoStore offerStore p now =
      create_offer_body_noFallback casinoStore offerStore p now := by
  unfold create_offer_body create_offer_body_noFallback
  rw [if_neg]
  rintro ⟨_, _, h3⟩
  exact Option.noConfusion h3

/-- C9: POST /api/offers is authorized only by a valid admin/editor bearer
token — whenever the role guard fails, the endpoint rejects with 401/403
independently of the X-Admin-Secret header; and the handler's
secret-fallback branch (the `user is None` check) is unreachable: the
endpoint behaves identically with that branch deleted. -/
theorem C9_offers_role_guard (users : List AdminUserRec) (tok : TokenState)
    (admin_secret x1 x2 : Option String) (casinoStore offerStore : List DocKV)
    (p : NewOffer) (now : ℕ) :
    (∀ e, require_roles ["admin", "editor"] users tok = .error e →
        create_offer users tok admin_secret x1 casinoStore offerStore p now =
          ((.error e), offerStore) ∧ (e.1 = 401 ∨ e.1 = 403)) ∧
    create_offer users tok admin_secret x1 casinoStore offerStore p now =
      create_offer users tok admin_secret x2 casinoStore offerStore p now ∧
    create_offer users tok admin_secret x1 casinoStore offerStore p now =
      create_offer_noFallback users tok casinoStore offerStore p now := by
  refine ⟨?_, ?_, ?_⟩
  · intro e he
    constructor
    · unfold create_offer
      rw [he]
    · exact require_roles_error_status _ users tok e he
  · unfold create_offer
    cases hg : require_roles ["admin", "editor"] users tok with
    | error e => rfl
    | ok u =>
      exact (create_offer_body_some admin_secret x1 u casinoStore offerStore p now).trans
        (create_offer_body_some admin_secret x2 u casinoStore offerStore p now).symm
  · unfold create_offer create_offer_noFallback
    cases hg : require_roles ["admin", "editor"] users tok with
    | error e => rfl
    | ok u => exact create_offer_body_some admin_secret x1 u casinoStore offerStore p now

/-- Closed witness for `C9_offers_role_guard`: a request with no bearer
token is rejected 401 even when the correct secret header is present. -/
theorem C9_offers_role_guard_witness :
    create_offer [] TokenState.missing (some "s3cret") (some "s3cret") [] []
      { casino_slug := "x", title := "t" } 0 =
      ((.error (401, "Not authenticated")), []) ∧
    (((401, "Not authenticated") : Err).1 = 401 ∨
      ((401, "Not authenticated") : Err).1 = 403) :=
  (C9_offers_role_guard [] TokenState.missing (some "s3cret") (some "s3cret")
      (some "s3cret") [] [] { casino_slug := "x", title := "t" } 0).1
      (401, "Not authenticated") rfl

/-! ### C10: `get_casino` ignores the published flag; `get_blog` does not -/

/-- A stored blog post as read by `GET /api/blogs/{slug}`. -/
structure BlogDoc where
  title : String
  slug : String
  content : String := ""
  status : String := "draft"
  published_at : Option ℕ := none
deriving DecidableEq, Repr

/-- Handler `get_blog`: `find_one({"slug": slug, "status": "published"})`,
404 when nothing matches — unpublished posts are invisible here. -/
def get_blog (blogs : List BlogDoc) (slug : String) : Except Err BlogDoc :=
  match blogs.find? (fun b => decide (b.slug = slug) && decide (b.status = "published")) with
  | none => .error (404, "Not found")
  | some b => .ok b

/-- Any item returned by `list_casinos` passed its Mongo filter. -/
theorem mem_items_casinoFilter (dbOk : Bool) (casinos : List CasinoDoc)
    (country q : Option String) (page0 page_size0 : ℤ) (sort : Option String)
    (c : CasinoDoc)
    (hc : c ∈ (list_casinos dbOk casinos country q page0 page_size0 sort).items) :
    casinoFilter country q c = true := by
  cases dbOk with
  | false => simp [list_casinos] at hc
  | true =>
    simp only [list_casinos] at hc
    have h1 : c ∈ List.insertionSort (fun a b => sortLe sort a b = true)
        (casinos.filter (casinoFilter country q)) :=
      List.drop_subset _ _ (List.take_subset _ _ hc)
    exact (List.mem_filter.mp ((List.mem_insertionSort _).mp h1)).2

/-- C10: getCasinoDetail does not filter on the published flag — for a
stored casino with `is_published = false`, GET /api/casinos/{slug} still
returns the full casino with its offers, reviews and rating breakdown —
while the public listing returns only published casinos and blog detail
returns NotFound when no published post carries the slug. -/
theorem C10_unpublished_detail (casinos : List CasinoDoc) (offers : List OfferDoc)
    (reviews : List ReviewDoc) (s : String) (c : CasinoDoc) (tl : List CasinoDoc)
    (blogs : List BlogDoc) (bs : String) :
    (casinos.filter (fun c' => c'.slug = s) = c :: tl → c.is_published = false →
      get_casino true casinos offers reviews s =
        .ok { casino := c, offers := offers.filter (fun o => o.casino_slug = s),
              reviews := reviews.filter (fun r => r.casino_slug = s),
              ratings := ratingsOf (reviews.filter (fun r => r.casino_slug = s)) }) ∧
    ((∀ b ∈ blogs, b.slug = bs → ¬(b.status = "published")) →
      get_blog blogs bs = .error (404, "Not found")) ∧
    (∀ (dbOk : Bool) (country q : Option String) (page0 page_size0 : ℤ)
        (sort : Option String) (c2 : CasinoDoc),
      c2 ∈ (list_casinos dbOk casinos country q page0 page_size0 sort).items →
      c2.is_published = true) := by
  refine ⟨?_, ?_, ?_⟩
  · intro h1 _h2
    simp only [get_casino, h1]
  · intro h
    unfold get_blog
    have hf : blogs.find?
        (fun b => decide (b.slug = bs) && decide (b.status = "published")) = none := by
      apply List.find?_eq_none.mpr
      intro b hb
      simp only [Bool.and_eq_true, decide_eq_true_eq, not_and]
      intro h1 h2
      exact h b hb h1 h2
    rw [hf]
  · intro dbOk country q page0 page_size0 sort c2 hc
    have := mem_items_casinoFilter dbOk casinos country q page0 page_size0 sort c2 hc
    rw [casinoFilter] at this
    simp only [Bool.and_eq_true] at this
    exact this.1.1

/-- Unpublished casino for the C10 witness. -/
def c10Casino : CasinoDoc :=
  { name := "Shadow Palace", slug := "shadow-palace",
    affiliate_url := "https://aff.example/shadow", is_published := false }

/-- Draft (unpublished) blog post for the C10 witness. -/
def c10Blog : BlogDoc := { title := "Draft post", slug := "draft-post" }

/-- Closed witness for `C10_unpublished_detail`: the unpublished casino's
detail is served in full, while the draft blog post's detail is a 404. -/
theorem C10_unpublished_detail_witness :
    get_casino true [c10Casino] [] [] "shadow-palace" =
      .ok { casino := c10Casino, offers := [], reviews := [], ratings := ratingsOf [] } ∧
    get_blog [c10Blog] "draft-post" = .error (404, "Not found") :=
  ⟨(C10_unpublished_detail [c10Casino] [] [] "shadow-palace" c10Casino [] [c10Blog]
      "draft-post").1 rfl rfl,
   (C10_unpublished_detail [c10Casino] [] [] "shadow-palace" c10Casino [] [c10Blog]
      "draft-post").2.1
      (by
        intro b hb h1 h2
        rw [List.mem_singleton] at hb
        subst hb
        exact absurd h2 (by decide))⟩

/-! ### Additional closed witnesses -/

/-- Closed witness for `C1_list_casinos_pagination` at out-of-range
inputs (page 0, page size 999). -/
theorem C1_list_casinos_pagination_witness :
    1 ≤ (list_casinos true [] none none 0 999 none).pagination.page ∧
    1 ≤ (list_casinos true [] none none 0 999 none).pagination.page_size ∧
    (list_casinos true [] none none 0 999 none).pagination.page_size ≤ 50 ∧
    (list_casinos true [] none none 0 999 none).pagination.pages =
      ⌈((list_casinos true [] none none 0 999 none).pagination.total : ℚ) /
        ((list_casinos true [] none none 0 999 none).pagination.page_size : ℚ)⌉ :=
  C1_list_casinos_pagination true [] none none 0 999 none

/-- Closed witness for `C5_timestamps_amended`: the blog document of the
counterexample payload carries neither timestamp. -/
theorem C5_timestamps_amended_witness :
    getKey (blogInsertedDoc c5Payload c5User 77) "created_at" = none ∧
    getKey (blogInsertedDoc c5Payload c5User 77) "updated_at" = none :=
  C5_timestamps_amended.2.1 c5Payload c5User 77

/-- Click payload carrying spoofed user-agent/IP values, for the C7
witness. -/
def c7Payload : ClickPayload :=
  { casino_slug := "lucky-spin", source := some "hero",
    user_agent := some "spoofed-agent", ip := some "10.0.0.1" }

/-- Request context whose derived values must win, for the C7 witness. -/
def c7Req : ReqCtx := { user_agent := some "RealBrowser/1.0", client_host := some "203.0.113.9" }

/-- Closed witness for `C7_track_click`: the spoofed payload fields are
overwritten and both database outcomes acknowledge with status ok. -/
theorem C7_track_click_witness :
    ((track_click true c7Payload c7Req 3 "abc").1.status = "ok" ∧
     (track_click true c7Payload c7Req 3 "abc").1.id = some "abc" ∧
     ∃ doc, (track_click true c7Payload c7Req 3 "abc").2 = some doc ∧
       getKey doc "user_agent" = some (optStrVal c7Req.user_agent) ∧
       getKey doc "ip" = some (optStrVal c7Req.client_host)) ∧
    track_click false c7Payload c7Req 3 "abc" = ({ id := none, status := "ok" }, none) :=
  C7_track_click c7Payload c7Req 3 "abc"

/-- Closed witness for `C8_publish_stamp_amended`: an update carrying
status "published" and no `published_at` stores a null `published_at`. -/
theorem C8_publish_stamp_amended_witness :
    getKey (applySet [] (blogToKV c8PublishPayload)) "published_at" = some PyVal.pNone ∧
    getKey (applySet [] (blogToKV c8PublishPayload)) "author_email" = some PyVal.pNone :=
  C8_publish_stamp_amended.2 [] c8PublishPayload
